import Mathlib

/-!
Verification of the `vk_api` client (`src/vk_api/vk_api.py`) against its
natural-language specification.  The Python source is shallowly embedded:
mutable client state becomes an explicit record, HTTP traffic becomes an
oracle (the response the transport would deliver) plus an explicit list of
issued requests, and Python exceptions become an `Except` error type.
-/

/- ### JSON values (the parsed bodies returned by `Response.json()`) -/

/-- A parsed JSON value, as produced by `response.json()` in the source. -/
inductive Json where
  | null : Json
  | str : String → Json
  | num : Int → Json
  | obj : List (String × Json) → Json

/-- First-match lookup in a JSON object field list (Python dict access). -/
def lookupField : List (String × Json) → String → Option Json
  | [], _ => none
  | (k', v) :: rest, k => if k' = k then some v else lookupField rest k

/-- Field access `body[k]` / `k in body` on a JSON object; `none` when
absent or not an object. -/
def Json.getField : Json → String → Option Json
  | .obj fields, k => lookupField fields k
  | _, _ => none

/-- Extract an integer field, as `ApiError` does for `error_code`. -/
def Json.getInt (j : Json) (k : String) : Option Int :=
  match j.getField k with
  | some (.num n) => some n
  | _ => none

/-- Extract a string field, as the CAPTCHA re-wrap does for `captcha_sid`. -/
def Json.getStr (j : Json) (k : String) : Option String :=
  match j.getField k with
  | some (.str s) => some s
  | _ => none

/- ### String-keyed dicts (the `values` parameter dictionaries) -/

/-- Membership test `k in d` for a Python dict modelled as an association
list. -/
def dictHas (d : List (String × String)) (k : String) : Bool :=
  d.any (fun p => p.1 = k)

/-- Assignment `d[k] = v`: overwrite in place when the key exists, else
append. -/
def dictInsert (d : List (String × String)) (k v : String) :
    List (String × String) :=
  if dictHas d k then
    d.map (fun p => if p.1 = k then (k, v) else p)
  else
    d ++ [(k, v)]

/-- Lookup `d.get(k)`: first-match lookup. -/
def dictLookup : List (String × String) → String → Option String
  | [], _ => none
  | (k', v) :: rest, k => if k' = k then some v else dictLookup rest k

/-- Python truthiness of an optional string (None or empty string is falsy). -/
def optTruthy : Option String → Bool
  | none => false
  | some s => !s.isEmpty

/- ### Error taxonomy

Modelled from the spec: the exceptions module (`vk_api/exceptions.py`) is
imported by the source but is not under `src/`; the spec's §3 taxonomy lists
the distinct error kinds (HttpError, ApiError, Captcha, AuthError,
TwoFactorError, PasswordRequired, BadPassword, AccountBlocked,
SecurityCheckRequired), each a distinct kind, with `code` the
platform-assigned integer for ApiError. -/
inductive VkErr where
  | httpError (methodName : String) (values : List (String × String)) : VkErr
  | apiError (methodName : String) (values : List (String × String))
      (code : Int) : VkErr
  | captcha (sid : Option String) (img : Option String) : VkErr
  | authError (msg : String) : VkErr
  | twoFactorError : VkErr
  | passwordRequired : VkErr
  | badPassword : VkErr
  | accountBlocked : VkErr
  | securityCheckRequired : VkErr
  | pyError : VkErr
  deriving DecidableEq

/- ### Constants from the source header -/

/-- Constant `DELAY = 0.34` from the source header (about 3 requests per
second). -/
def DELAY : ℚ := 34 / 100

def TOO_MANY_RPS_CODE : Int := 6
def NEED_VALIDATION_CODE : Int := 17
def HTTP_ERROR_CODE : Int := -1
def TWOFACTOR_CODE : Int := -2

/-- Modelled from the spec: the CAPTCHA condition's numeric code is defined
in the exceptions module, which is not under `src/`; the claims never depend
on its concrete value, only on its identity as the registry key for the
CAPTCHA handler. -/
def CAPTCHA_ERROR_CODE : Int := 14

/- ### Rate-limited dispatch timing (`VkApi.method`, lines 493-501)

Inside the locked region the code computes
`delay = DELAY - (time.time() - self.last_request)`, sleeps for `delay`
when positive, issues the POST, and then records
`self.last_request = time.time()` (the completion time of the request).
Time is modelled as exact rationals.  One dispatched call is characterised
by the time the locked region is entered (`arrival`, the `time.time()`
read) and the duration of the POST. -/

structure CallTiming where
  arrival : ℚ
  duration : ℚ

/-- Start time of the POST: the arrival time plus the sleep, when
`delay = DELAY - (arrival - last_request)` is positive. -/
def requestStart (last arrival : ℚ) : ℚ :=
  if 0 < DELAY - (arrival - last) then arrival + (DELAY - (arrival - last))
  else arrival

/-- The start times of a sequence of dispatched calls, threading
`last_request`: each call's `last_request` update is the previous call's
start plus its duration (the POST completion time). -/
def runCalls (last : ℚ) : List CallTiming → List ℚ
  | [] => []
  | c :: cs =>
    let s := requestStart last c.arrival
    s :: runCalls (s + c.duration) cs

/-- The lock discipline: each call enters the locked region no earlier than
the recorded completion time of the previous request, and requests take
nonnegative time. -/
def ValidTrace : ℚ → List CallTiming → Prop
  | _, [] => True
  | last, c :: cs =>
    last ≤ c.arrival ∧ 0 ≤ c.duration ∧
      ValidTrace (requestStart last c.arrival + c.duration) cs

theorem requestStart_ge (last arrival : ℚ) (_h : last ≤ arrival) :
    last + DELAY ≤ requestStart last arrival := by
  rw [requestStart]
  by_cases hd : 0 < DELAY - (arrival - last)
  · rw [if_pos hd]; linarith
  · rw [if_neg hd]; push_neg at hd; linarith

theorem runCalls_chain (cs : List CallTiming) : ∀ last : ℚ,
    ValidTrace last cs →
    List.Chain' (fun s t => s + DELAY ≤ t) (runCalls last cs) := by
  induction cs with
  | nil => intro last _; simp [runCalls]
  | cons c cs ih =>
    intro last h
    obtain ⟨harr, hdur, hrest⟩ := h
    rw [runCalls, List.chain'_cons']
    refine ⟨?_, ih _ hrest⟩
    intro y hy
    cases cs with
    | nil => simp [runCalls] at hy
    | cons c' cs' =>
      obtain ⟨harr', hdur', _⟩ := hrest
      simp only [runCalls, List.head?_cons, Option.mem_def, Option.some.injEq] at hy
      subst hy
      have h1 := requestStart_ge (requestStart last c.arrival + c.duration)
        c'.arrival harr'
      linarith

/-- C1: under the client's single lock, for any valid sequence of calls to
`method` (each entering the locked region no earlier than the recorded
completion of the previous request), the starts of any two consecutive
dispatched HTTP requests are at least `DELAY = 0.34` apart. -/
theorem C1_rate_limit (last : ℚ) (cs : List CallTiming)
    (h : ValidTrace last cs) :
    List.Chain' (fun s t => s + DELAY ≤ t) (runCalls last cs) :=
  runCalls_chain cs last h

/-- Witness for C1: a concrete back-to-back trace (arrivals immediately at
the previous completion) satisfies the validity hypothesis and the proved
spacing. -/
theorem C1_rate_limit_witness :
    ValidTrace 0 [⟨1, 1/10⟩, ⟨11/10 + 34/100, 0⟩] ∧
    List.Chain' (fun s t => s + DELAY ≤ t)
      (runCalls 0 [⟨1, 1/10⟩, ⟨11/10 + 34/100, 0⟩]) := by
  constructor
  · refine ⟨by norm_num, by norm_num, ?_, by norm_num, trivial⟩
    simp only [requestStart, DELAY]
    norm_num
  · exact C1_rate_limit 0 _ (by
      refine ⟨by norm_num, by norm_num, ?_, by norm_num, trivial⟩
      simp only [requestStart, DELAY]
      norm_num)

/- ### Client state and handlers (`VkApi.__init__`, lines 40-100) -/

/-- The mutable credential state of a client: `self.sid`, `self.token`
(None or a Python dict), and `self.last_request`. -/
structure VkState where
  sid : Option String
  token : Option (List (String × String))
  last_request : ℚ

/-- Python truthiness of `self.token` (None or an empty dict is falsy). -/
def tokenTruthy : Option (List (String × String)) → Bool
  | none => false
  | some t => !t.isEmpty

/-- The behavior of an error handler when invoked on an error: it may raise
an exception (`Except.error`), return a value, or return `None`
(`Except.ok none`). -/
def HandlerFn : Type := VkErr → Except VkErr (Option Json)

/-- The handlers a `method` call consults: the `self.error_handlers`
registry (keyed by integer error code; `none` means no entry) and the
`self.http_handler` method used on transport failure. -/
structure Handlers where
  registry : Int → Option HandlerFn
  httpH : HandlerFn

/-- The transport's answer to the single POST issued by `method`:
either `response.ok` with the parsed JSON body, or a non-success status. -/
inductive HttpResp where
  | ok (body : Json)
  | fail

/- ### Building the sent parameters (`VkApi.method`, lines 480-491)

The source copies the caller's dict (`values.copy()`), defaults `'v'` to
the API version when absent, attaches `access_token` when `self.token` is
truthy (a `KeyError` escapes if the token dict lacks the key), and attaches
both CAPTCHA fields when both are truthy. -/

/-- Step `if 'v' not in values: values['v'] = self.api_version`. -/
def stageV (apiVersion : String) (params : List (String × String)) :
    List (String × String) :=
  if dictHas params "v" then params else dictInsert params "v" apiVersion

/-- Step `if self.token: values['access_token'] = self.token['access_token']`. -/
def stageToken (token : Option (List (String × String)))
    (vals : List (String × String)) :
    Except VkErr (List (String × String)) :=
  if tokenTruthy token then
    match token with
    | some t =>
      match dictLookup t "access_token" with
      | some tok => .ok (dictInsert vals "access_token" tok)
      | none => .error .pyError
    | none => .error .pyError
  else .ok vals

/-- Step `if captcha_sid and captcha_key: values['captcha_sid'] = ...;
values['captcha_key'] = ...`. -/
def stageCaptcha (captchaSid captchaKey : Option String)
    (vals : List (String × String)) : List (String × String) :=
  if optTruthy captchaSid && optTruthy captchaKey then
    dictInsert (dictInsert vals "captcha_sid" (captchaSid.getD ""))
      "captcha_key" (captchaKey.getD "")
  else vals

/-- The full parameter dictionary sent by `method` (an uncaught `KeyError`
on a token dict without `access_token` is `.error .pyError`). -/
def buildValues (st : VkState) (apiVersion : String)
    (params : List (String × String)) (captchaSid captchaKey : Option String) :
    Except VkErr (List (String × String)) :=
  match stageToken st.token (stageV apiVersion params) with
  | .error e => .error e
  | .ok v2 => .ok (stageCaptcha captchaSid captchaKey v2)

/- ### The dispatcher (`VkApi.method`, lines 469-535) -/

/-- The error dispatched to the registry's handler: when the code is the
CAPTCHA code the `ApiError` is re-wrapped into a `Captcha` carrying the
platform-supplied `captcha_sid` and `captcha_img` (a `KeyError` escapes
when the payload lacks them); otherwise the `ApiError` itself. -/
def dispatchError (methodName : String) (values : List (String × String))
    (code : Int) (payload : Json) : Except VkErr VkErr :=
  if code = CAPTCHA_ERROR_CODE then
    match payload.getStr "captcha_sid", payload.getStr "captcha_img" with
    | some csid, some img => .ok (.captcha (some csid) (some img))
    | _, _ => .error .pyError
  else .ok (.apiError methodName values code)

/-- The observable outcome of one `method` call: the returned value or
raised error, the client state afterwards, the requests issued, and the
contents of the caller's params dict after the call (the source copies the
dict before mutating, so it is the original). -/
structure MethodOutcome where
  result : Except VkErr Json
  finalState : VkState
  requests : List (String × List (String × String))
  callerValues : List (String × String)

/-- Shallow embedding of `VkApi.method`.  `resp` is the transport's answer
to the POST and `tAfter` the `time.time()` read after it completes (the
new `last_request`).  Handlers are abstract; the per-branch behavior
mirrors the source: transport failure routes through `http_handler`
(non-`None` result returned, else the `ApiHttpError` is raised); an
`error` field builds an `ApiError`, re-wraps it into `Captcha` when its
code is the CAPTCHA code and the registry has an entry, dispatches to the
registry handler when present (non-`None` result returned, else the
dispatched error is raised), and raises unresolved codes; otherwise the
`response` field is returned, or the whole body when `raw`. -/
def methodRun (st : VkState) (apiVersion : String) (h : Handlers)
    (methodName : String) (params : List (String × String))
    (captchaSid captchaKey : Option String) (raw : Bool)
    (resp : HttpResp) (tAfter : ℚ) : MethodOutcome :=
  match buildValues st apiVersion params captchaSid captchaKey with
  | .error e => ⟨.error e, st, [], params⟩
  | .ok values =>
    let st' := { st with last_request := tAfter }
    let reqs := [(methodName, values)]
    match resp with
    | .fail =>
      let err := VkErr.httpError methodName values
      match h.httpH err with
      | .error e => ⟨.error e, st', reqs, params⟩
      | .ok (some v) => ⟨.ok v, st', reqs, params⟩
      | .ok none => ⟨.error err, st', reqs, params⟩
    | .ok body =>
      match body.getField "error" with
      | some payload =>
        match payload.getInt "error_code" with
        | none => ⟨.error .pyError, st', reqs, params⟩
        | some code =>
          match h.registry code with
          | none => ⟨.error (.apiError methodName values code), st', reqs, params⟩
          | some handler =>
            match dispatchError methodName values code payload with
            | .error e => ⟨.error e, st', reqs, params⟩
            | .ok err =>
              match handler err with
              | .error e => ⟨.error e, st', reqs, params⟩
              | .ok (some v) => ⟨.ok v, st', reqs, params⟩
              | .ok none => ⟨.error err, st', reqs, params⟩
      | none =>
        if raw then ⟨.ok body, st', reqs, params⟩
        else
          match body.getField "response" with
          | some r => ⟨.ok r, st', reqs, params⟩
          | none => ⟨.error .pyError, st', reqs, params⟩

/- ### Default handlers and the constructor's registry (lines 91-98, 446-464) -/

/-- Default `need_validation_handler`: a `pass` body, returns `None`. -/
def need_validation_handler : HandlerFn := fun _ => .ok none

/-- Default `captcha_handler`: `raise captcha`. -/
def captcha_handler : HandlerFn := fun e => .error e

/-- Default `http_handler`: a `pass` body, returns `None` (so `method`
re-raises the transport error). -/
def http_handler : HandlerFn := fun _ => .ok none

/-- Default `auth_handler` for the two-factor code: raises `AuthError`. -/
def auth_handler : HandlerFn :=
  fun _ => .error (.authError "No handler for two-factor authentication")

/-- Handler `too_many_rps_handler`: sleeps 0.5s and returns
`error.try_method()`.  `try_method` lives in the exceptions module, which
is not under `src/`; modelled from the spec ("sleep a fixed short interval,
then re-invoke the original call") as a supplied retry continuation. -/
def too_many_rps_handler (tryMethod : HandlerFn) : HandlerFn :=
  fun e => tryMethod e

/-- The handlers as installed by `VkApi.__init__`: the registry binds the
four codes (the caller may supply `captcha_handler` and `auth_handler`
arguments, used in place of the defaults when given); `http_handler` is an
instance method, not stored in the registry and not a constructor
parameter. -/
def vkApiInit (authHandlerArg captchaHandlerArg : Option HandlerFn)
    (tryMethod : HandlerFn) : Handlers :=
  { registry := fun code =>
      if code = NEED_VALIDATION_CODE then some need_validation_handler
      else if code = CAPTCHA_ERROR_CODE then
        some (captchaHandlerArg.getD captcha_handler)
      else if code = TOO_MANY_RPS_CODE then
        some (too_many_rps_handler tryMethod)
      else if code = TWOFACTOR_CODE then
        some (authHandlerArg.getD auth_handler)
      else none,
    httpH := http_handler }

/- ### Dictionary lemmas used to reason about the sent parameters -/

theorem dictHas_false_lookup (d : List (String × String)) (k : String)
    (h : dictHas d k = false) : dictLookup d k = none := by
  induction d with
  | nil => rfl
  | cons p rest ih =>
    simp only [dictHas, List.any_cons, Bool.or_eq_false_iff,
      decide_eq_false_iff_not] at h
    simp only [dictLookup, if_neg h.1]
    exact ih (by simp only [dictHas]; exact h.2)

theorem lookup_map_overwrite (d : List (String × String)) (k v : String)
    (h : dictHas d k = true) :
    dictLookup (d.map (fun p => if p.1 = k then (k, v) else p)) k
      = some v := by
  induction d with
  | nil => simp [dictHas] at h
  | cons p rest ih =>
    simp only [List.map_cons]
    by_cases hp : p.1 = k
    · rw [if_pos hp]
      simp [dictLookup]
    · rw [if_neg hp]
      simp only [dictLookup, if_neg hp]
      apply ih
      simp only [dictHas, List.any_cons, Bool.or_eq_true,
        decide_eq_true_eq] at h
      rcases h with h | h
      · exact absurd h hp
      · simpa [dictHas] using h

theorem lookup_map_overwrite_ne (d : List (String × String))
    (k v k' : String) (h : k' ≠ k) :
    dictLookup (d.map (fun p => if p.1 = k then (k, v) else p)) k'
      = dictLookup d k' := by
  induction d with
  | nil => rfl
  | cons p rest ih =>
    simp only [List.map_cons]
    by_cases hp : p.1 = k
    · have hpk' : ¬ p.1 = k' := by rw [hp]; exact fun hc => h hc.symm
      rw [if_pos hp]
      simp only [dictLookup, if_neg (fun hc => h hc.symm : ¬ k = k'),
        if_neg hpk']
      exact ih
    · rw [if_neg hp]
      simp only [dictLookup]
      by_cases hpk' : p.1 = k'
      · simp [hpk']
      · simp only [if_neg hpk']
        exact ih

theorem lookup_append_single (d : List (String × String)) (k v k' : String) :
    dictLookup (d ++ [(k, v)]) k'
      = match dictLookup d k' with
        | some w => some w
        | none => if k = k' then some v else none := by
  induction d with
  | nil => simp [dictLookup]
  | cons p rest ih =>
    simp only [List.cons_append, dictLookup]
    by_cases hpk' : p.1 = k'
    · simp [hpk']
    · simp only [if_neg hpk']
      exact ih

theorem dictLookup_dictInsert_self (d : List (String × String))
    (k v : String) : dictLookup (dictInsert d k v) k = some v := by
  rw [dictInsert]
  by_cases h : dictHas d k
  · rw [if_pos h]
    exact lookup_map_overwrite d k v h
  · rw [if_neg h]
    rw [Bool.not_eq_true] at h
    rw [lookup_append_single, dictHas_false_lookup d k h]
    simp

theorem dictLookup_dictInsert_ne (d : List (String × String))
    (k v k' : String) (h : k' ≠ k) :
    dictLookup (dictInsert d k v) k' = dictLookup d k' := by
  rw [dictInsert]
  by_cases hh : dictHas d k
  · rw [if_pos hh]
    exact lookup_map_overwrite_ne d k v k' h
  · rw [if_neg hh]
    rw [lookup_append_single]
    have : ¬ k = k' := fun hc => h hc.symm
    rw [if_neg this]
    cases dictLookup d k' <;> rfl

/- ### Validity checks (`check_sid` lines 354-376, `check_token` lines 435-444) -/

/-- A request issued on the wire: a URL or API-method name together with
the form values sent. -/
def Req : Type := String × List (String × String)

/-- Shallow embedding of `VkApi.check_sid`: a falsy `self.sid` returns
`None` with no request; otherwise one GET of `feed2.php` is issued
(`feedResp` is its parsed JSON), the reported `user.id` is compared with
the anonymous sentinel `-1`, and the response (truthy) or `None` (falsy)
is returned; a missing or non-numeric `user.id` is an uncaught `KeyError`
or `TypeError`. -/
def check_sid (sid : Option String) (feedResp : Json) :
    Except VkErr (Option Json) × List Req :=
  if !optTruthy sid then (.ok none, [])
  else
    match (feedResp.getField "user").bind (fun u => u.getField "id") with
    | some (.num n) =>
      if n ≠ -1 then (.ok (some feedResp), [("https://vk.com/feed2.php", [])])
      else (.ok none, [("https://vk.com/feed2.php", [])])
    | _ => (.error .pyError, [("https://vk.com/feed2.php", [])])

/-- Shallow embedding of `VkApi.check_token`: when `self.token` is truthy
the probe `self.method('stats.trackVisitor')` is issued (its transport
answer is `probe`); an `ApiError` from it yields `False`, any other
exception propagates, success yields `True`; a falsy token returns `None`
with no request. -/
def check_token (st : VkState) (apiVersion : String) (h : Handlers)
    (probe : HttpResp) (t : ℚ) :
    Except VkErr (Option Bool) × List Req :=
  if tokenTruthy st.token then
    let out := methodRun st apiVersion h "stats.trackVisitor" [] none none
      false probe t
    match out.result with
    | .error (.apiError _ _ _) => (.ok (some false), out.requests)
    | .error e => (.error e, out.requests)
    | .ok _ => (.ok (some true), out.requests)
  else (.ok none, [])

/- ### Token-preferring authentication (`_auth_token` lines 172-187,
`auth` lines 102-137) -/

/-- The outcome of an authentication sub-flow when invoked: the value or
exception it produces and the requests it issues.  `security_check`,
`api_login` and `vk_login` are threaded through `_auth_token` as given
outcomes because the claims settled here never reach their bodies. -/
def SubFlow : Type := Except VkErr Unit × List Req

/-- Sequential composition of two sub-flows (`a(); b()` in Python): `b`
runs only when `a` does not raise. -/
def seqFlow (a b : SubFlow) : SubFlow :=
  match a.1 with
  | .error e => (.error e, a.2)
  | .ok _ => (b.1, a.2 ++ b.2)

/-- Shallow embedding of `VkApi._auth_token`.  The flow is exactly the
source's: `if not reauth and self.check_token(): return` (with `reauth`
short-circuiting the probe), then `if self.check_sid(): security_check();
api_login()`, `elif self.password: vk_login(); api_login()` — and no
further branch: when the sid check is falsy and the password is falsy the
function returns normally. -/
def auth_token (st : VkState) (password : Option String)
    (apiVersion : String) (h : Handlers) (reauth : Bool) (probe : HttpResp)
    (t : ℚ) (feedResp : Json)
    (securityCheckFlow apiLoginFlow vkLoginFlow : SubFlow) : SubFlow :=
  let ct : Except VkErr (Option Bool) × List Req :=
    if reauth then (.ok none, []) else check_token st apiVersion h probe t
  match ct.1 with
  | .error e => (.error e, ct.2)
  | .ok r =>
    if !reauth && r.getD false then (.ok (), ct.2)
    else
      match (check_sid st.sid feedResp).1 with
      | .error e => (.error e, ct.2 ++ (check_sid st.sid feedResp).2)
      | .ok sres =>
        if sres.isSome then
          let rest := seqFlow securityCheckFlow apiLoginFlow
          (rest.1, ct.2 ++ (check_sid st.sid feedResp).2 ++ rest.2)
        else if optTruthy password then
          let rest := seqFlow vkLoginFlow apiLoginFlow
          (rest.1, ct.2 ++ (check_sid st.sid feedResp).2 ++ rest.2)
        else (.ok (), ct.2 ++ (check_sid st.sid feedResp).2)

/-- The persisted settings section consulted by `auth`: `remixsid` and the
`token` map from stringified scope to token dict. -/
structure Settings where
  remixsid : Option String
  tokens : List (String × List (String × String))

/-- Lookup in the persisted scope-to-token map
(`settings.setdefault('token', curly).get(str(scope))`). -/
def lookupTokenMap : List (String × List (String × String)) → String →
    Option (List (String × String))
  | [], _ => none
  | (k', v) :: rest, k => if k' = k then some v else lookupTokenMap rest k

/-- The client state `auth` establishes from the settings store before any
network call: `self.sid = self.settings.remixsid`, `self.token` the token
saved under the current scope. -/
def authState (settings : Settings) (scope : String) : VkState :=
  { sid := settings.remixsid,
    token := lookupTokenMap settings.tokens scope,
    last_request := 0 }

/-- Shallow embedding of `VkApi.auth`: a falsy login is a no-op; otherwise
sid and token are loaded from settings and control passes to
`_auth_token` when `token_only`, else to `_auth_cookies` (given here as an
outcome, unexercised by the claims settled against this definition). -/
def auth (login password : Option String) (scope : String)
    (settings : Settings) (apiVersion : String) (h : Handlers)
    (reauth tokenOnly : Bool) (probe : HttpResp) (t : ℚ) (feedResp : Json)
    (securityCheckFlow apiLoginFlow vkLoginFlow authCookiesFlow : SubFlow) :
    SubFlow :=
  if !optTruthy login then (.ok (), [])
  else if tokenOnly then
    auth_token (authState settings scope) password apiVersion h reauth
      probe t feedResp securityCheckFlow apiLoginFlow vkLoginFlow
  else authCookiesFlow

/- ### Cookie login (`vk_login`, lines 200-287) -/

/-- Leading-match test for character lists (helper for the `in` marker
tests on response texts). -/
def strStarts : List Char → List Char → Bool
  | [], _ => true
  | _ :: _, [] => false
  | a :: as, b :: bs => a = b && strStarts as bs

/-- Substring occurrence test on character lists. -/
def strHasSub (needle : List Char) : List Char → Bool
  | [] => needle.isEmpty
  | b :: bs => strStarts needle (b :: bs) || strHasSub needle bs

/-- Python's `marker in text` on strings. -/
def strIn (needle hay : String) : Bool :=
  strHasSub needle.toList hay.toList


/-- An observable side effect of `vk_login`: clearing the cookie jar or
issuing a GET/POST. -/
inductive Ev where
  | clearCookies : Ev
  | get (url : String) : Ev
  | post (url : String) : Ev
  deriving DecidableEq

/-- The world `vk_login` interacts with: response texts, the results of
the regex extractions (`search_re` lives in the utils module, not under
`src/`, so its results are oracle-supplied), the cookie jar contents after
the login POST, and the outcomes and events of the sub-flows it invokes. -/
structure VkLoginWorld where
  loginRespText : String
  captchaSidFound : Option String
  twofactorOutcome : Except VkErr Unit
  twofactorEvents : List Ev
  cookiesAfter : List (String × String)
  securityOutcome : Except VkErr String
  securityEvents : List Ev

/-- Shallow embedding of `VkApi.vk_login`.  A falsy password raises
`PasswordRequired` before anything else; otherwise the cookie jar is
cleared, the main page fetched, the credentials posted, and the response
text inspected for the CAPTCHA, bad-password and two-factor markers; then
the session cookie (`remixsid` or `remixsid6`) is read (its absence is an
`AuthError`), the secondary cookie pair `p`/`l` is persisted (a `KeyError`
escapes when missing), a security check runs, and a blocked-account
redirect raises `AccountBlocked`.  The result carries the session id the
call establishes, when any. -/
def vk_login (password : Option String) (h : Handlers)
    (w : VkLoginWorld) :
    Except VkErr (Option Json) × List Ev × Option String :=
  if !optTruthy password then (.error .passwordRequired, [], none)
  else
    let evs1 := [Ev.clearCookies, Ev.get "https://vk.com/",
      Ev.post "https://login.vk.com/"]
    if strIn "onLoginCaptcha(" w.loginRespText then
      match h.registry CAPTCHA_ERROR_CODE with
      | some handler =>
        match handler (.captcha w.captchaSidFound none) with
        | .ok v => (.ok v, evs1, none)
        | .error e => (.error e, evs1, none)
      | none => (.error .pyError, evs1, none)
    else if strIn "onLoginFailed(4" w.loginRespText then
      (.error .badPassword, evs1, none)
    else
      let tf : Except VkErr Unit × List Ev :=
        if strIn "act=authcheck" w.loginRespText then
          (w.twofactorOutcome,
            Ev.get "https://vk.com/login?act=authcheck" :: w.twofactorEvents)
        else (.ok (), [])
      match tf.1 with
      | .error e => (.error e, evs1 ++ tf.2, none)
      | .ok _ =>
        let r1 := dictLookup w.cookiesAfter "remixsid"
        let r2 := dictLookup w.cookiesAfter "remixsid6"
        let remixsid := if optTruthy r1 then r1 else r2
        if optTruthy remixsid then
          match dictLookup w.cookiesAfter "p", dictLookup w.cookiesAfter "l" with
          | some _, some _ =>
            match w.securityOutcome with
            | .error e => (.error e, evs1 ++ tf.2 ++ w.securityEvents, remixsid)
            | .ok url =>
              if strIn "act=blocked" url then
                (.error .accountBlocked, evs1 ++ tf.2 ++ w.securityEvents,
                  remixsid)
              else (.ok none, evs1 ++ tf.2 ++ w.securityEvents, remixsid)
          | _, _ => (.error .pyError, evs1 ++ tf.2, none)
        else
          (.error (.authError
            "Unknown error. Please send bugreport: https://vk.com/python273"),
            evs1 ++ tf.2, none)

/- ### Two-factor sub-flow (`twofactor`, lines 289-314) -/


/-- Fuel-indexed worker for splitting a character list on a non-empty
separator, scanning left to right over non-overlapping occurrences (the
fuel, initialised to the text length, only makes the recursion structural;
it never runs out).  `acc` holds the current field reversed. -/
def splitAuxFuel (sep : List Char) : Nat → List Char → List Char →
    List (List Char)
  | _, [], acc => [acc.reverse]
  | 0, hay, acc => [acc.reverse ++ hay]
  | fuel + 1, c :: cs, acc =>
    if strStarts sep (c :: cs) && !sep.isEmpty then
      acc.reverse :: splitAuxFuel sep fuel (List.drop (sep.length - 1) cs) []
    else splitAuxFuel sep fuel cs (c :: acc)

/-- Python's `text.split(sep)` for a non-empty separator. -/
def splitOnSep (sep hay : String) : List String :=
  (splitAuxFuel sep.toList hay.toList.length hay.toList []).map
    (fun cs => String.mk cs)

/-- The status field governing the two-factor flow: the 5th field
(index 4) of the `<!>`-split response text. -/
def twofactorStatus (t : String) : Option String :=
  (splitOnSep "<!>" t).get? 4

/-- Terminal outcomes of the two-factor flow. -/
inductive TFOut where
  | accepted (resp : String) : TFOut
  | failTF : TFOut
  | crash : TFOut
  | exhausted : TFOut
  deriving DecidableEq

/-- Shallow embedding of `VkApi.twofactor`.  Each recursive activation
invokes the bound handler (for the code and remember-device pair), posts
the code, and splits the response on the `<!>` delimiter; the argument
list holds the successive POST response texts, so the unbounded recursion
of the source becomes structural recursion on the remaining trace
(`exhausted` marks a trace too short to decide, i.e. the recursion still
running).  The returned number counts handler invocations.  Status `"4"`
fetches `'https://vk.com/' + parsed[5]` (via `redirect`) and returns that
response; status `"8"` recurses; any other status raises
`TwoFactorError`; an out-of-range index is an uncaught `IndexError`
(`crash`). -/
def twofactorRun (redirect : String → String) :
    List String → TFOut × Nat
  | [] => (.exhausted, 0)
  | t :: rest =>
    let parsed := splitOnSep "<!>" t
    match parsed.get? 4 with
    | none => (.crash, 1)
    | some s =>
      if s = "4" then
        match parsed.get? 5 with
        | some path => (.accepted (redirect ("https://vk.com/" ++ path)), 1)
        | none => (.crash, 1)
      else if s = "8" then
        let r := twofactorRun redirect rest
        (r.1, r.2 + 1)
      else (.failTF, 1)

/- ### Helper lemmas about the dispatcher -/

theorem methodRun_requests (st : VkState) (apiVersion : String)
    (h : Handlers) (m : String) (params : List (String × String))
    (cs ck : Option String) (raw : Bool) (resp : HttpResp) (t : ℚ)
    (values : List (String × String))
    (hv : buildValues st apiVersion params cs ck = .ok values) :
    (methodRun st apiVersion h m params cs ck raw resp t).requests
      = [(m, values)] := by
  unfold methodRun
  rw [hv]
  dsimp only
  repeat' split
  all_goals simp_all

theorem methodRun_finalState (st : VkState) (apiVersion : String)
    (h : Handlers) (m : String) (params : List (String × String))
    (cs ck : Option String) (raw : Bool) (resp : HttpResp) (t : ℚ) :
    (methodRun st apiVersion h m params cs ck raw resp t).finalState = st ∨
    (methodRun st apiVersion h m params cs ck raw resp t).finalState
      = { st with last_request := t } := by
  unfold methodRun
  dsimp only
  repeat' split
  all_goals first
    | exact Or.inl rfl
    | exact Or.inr rfl

/-- C7: every invocation of `method` that terminates by raising an error
leaves the client's credential state — the `sid` and `token` fields —
exactly as it was before the call (the dispatcher only ever writes
`last_request`). -/
theorem C7_error_frame (st : VkState) (apiVersion : String) (h : Handlers)
    (m : String) (params : List (String × String)) (cs ck : Option String)
    (raw : Bool) (resp : HttpResp) (t : ℚ)
    (_herr : ∃ e,
      (methodRun st apiVersion h m params cs ck raw resp t).result
        = .error e) :
    (methodRun st apiVersion h m params cs ck raw resp t).finalState.sid
        = st.sid ∧
    (methodRun st apiVersion h m params cs ck raw resp t).finalState.token
        = st.token := by
  rcases methodRun_finalState st apiVersion h m params cs ck raw resp t
    with hf | hf <;> rw [hf]
  · exact ⟨rfl, rfl⟩
  · exact ⟨rfl, rfl⟩

/-- Witness for C7: a concrete transport failure under the default
handlers raises the `ApiHttpError` and leaves `sid`/`token` unchanged. -/
theorem C7_error_frame_witness :
    (∃ e, (methodRun ⟨none, none, 0⟩ "5.63"
      (vkApiInit none none http_handler) "users.get" [] none none false
      .fail 1).result = .error e) ∧
    (methodRun ⟨none, none, 0⟩ "5.63" (vkApiInit none none http_handler)
      "users.get" [] none none false .fail 1).finalState.sid
        = (⟨none, none, 0⟩ : VkState).sid ∧
    (methodRun ⟨none, none, 0⟩ "5.63" (vkApiInit none none http_handler)
      "users.get" [] none none false .fail 1).finalState.token
        = (⟨none, none, 0⟩ : VkState).token := by
  refine ⟨⟨.httpError "users.get" [("v", "5.63")], ?_⟩, ?_⟩
  · rfl
  · exact C7_error_frame ⟨none, none, 0⟩ "5.63"
      (vkApiInit none none http_handler) "users.get" [] none none false
      .fail 1 ⟨.httpError "users.get" [("v", "5.63")], rfl⟩

/-- C10: `check_token` with an absent or empty stored token reports a
falsy result (`None`) with no network request; with a token present
exactly the one probe request is issued, an `ApiError` from the probe
yields `False`, and a transport-level `ApiHttpError` propagates out. -/
theorem C10_check_token (st : VkState) (apiVersion : String) (h : Handlers)
    (probe : HttpResp) (t : ℚ) :
    (tokenTruthy st.token = false →
      check_token st apiVersion h probe t = (.ok none, [])) ∧
    (∀ values, tokenTruthy st.token = true →
      buildValues st apiVersion [] none none = .ok values →
      (check_token st apiVersion h probe t).2
        = [("stats.trackVisitor", values)]) ∧
    (∀ mn v c, tokenTruthy st.token = true →
      (methodRun st apiVersion h "stats.trackVisitor" [] none none false
        probe t).result = .error (.apiError mn v c) →
      (check_token st apiVersion h probe t).1 = .ok (some false)) ∧
    (∀ mn v, tokenTruthy st.token = true →
      (methodRun st apiVersion h "stats.trackVisitor" [] none none false
        probe t).result = .error (.httpError mn v) →
      (check_token st apiVersion h probe t).1 = .error (.httpError mn v)) := by
  refine ⟨?_, ?_, ?_, ?_⟩
  · intro hf
    unfold check_token
    rw [hf]
    rfl
  · intro values htr hv
    unfold check_token
    rw [htr]
    simp only [if_true]
    rw [methodRun_requests st apiVersion h "stats.trackVisitor" [] none
      none false probe t values hv]
    split <;> rfl
  · intro mn v c htr hres
    unfold check_token
    rw [htr]
    simp only [if_true, hres]
  · intro mn v htr hres
    unfold check_token
    rw [htr]
    simp only [if_true, hres]

/-- Witness for C10: with no token stored, `check_token` is `None` with no
requests (first conjunct at a concrete state). -/
theorem C10_check_token_witness :
    check_token ⟨none, none, 0⟩ "5.63" (vkApiInit none none http_handler)
      .fail 1 = (.ok none, []) :=
  (C10_check_token ⟨none, none, 0⟩ "5.63"
    (vkApiInit none none http_handler) .fail 1).1 rfl

/-- C8: with no password configured, `vk_login` raises `PasswordRequired`
before clearing any cookies and before issuing any network request (the
event list is empty), and establishes no session id. -/
theorem C8_password_required (password : Option String) (h : Handlers)
    (w : VkLoginWorld) (hp : optTruthy password = false) :
    vk_login password h w = (.error .passwordRequired, [], none) := by
  unfold vk_login
  rw [hp]
  rfl

/-- Witness for C8: a concrete world with no password. -/
theorem C8_password_required_witness :
    vk_login none (vkApiInit none none http_handler)
      ⟨"", none, .ok (), [], [], .ok "", []⟩
      = (.error .passwordRequired, [], none) :=
  C8_password_required none (vkApiInit none none http_handler)
    ⟨"", none, .ok (), [], [], .ok "", []⟩ rfl

/-- C4: in the two-factor sub-flow, the 5th field of the `<!>`-split
response determines the outcome: `"4"` terminates the flow by fetching the
redirect target given in the 6th field and returning that response (one
handler invocation); `"8"` causes exactly one additional handler
invocation and continues the flow on the remaining trace (one re-prompt
per occurrence, unbounded); any other value raises `TwoFactorError`. -/
theorem C4_twofactor (redirect : String → String) (t : String)
    (rest : List String) :
    (∀ path, twofactorStatus t = some "4" →
      (splitOnSep "<!>" t).get? 5 = some path →
      twofactorRun redirect (t :: rest)
        = (.accepted (redirect ("https://vk.com/" ++ path)), 1)) ∧
    (twofactorStatus t = some "8" →
      twofactorRun redirect (t :: rest)
        = ((twofactorRun redirect rest).1,
           (twofactorRun redirect rest).2 + 1)) ∧
    (∀ s, twofactorStatus t = some s → s ≠ "4" → s ≠ "8" →
      twofactorRun redirect (t :: rest) = (.failTF, 1)) := by
  unfold twofactorStatus
  refine ⟨?_, ?_, ?_⟩
  · intro path h4 h5
    unfold twofactorRun
    dsimp only
    rw [h4, h5]
    simp
  · intro h8
    conv_lhs => rw [twofactorRun]
    dsimp only
    rw [h8]
    simp
  · intro s hs h4 h8
    unfold twofactorRun
    dsimp only
    rw [hs]
    simp [h4, h8]

/-- Witness for C4: concrete `<!>`-delimited responses exercising all
three branches (acceptance fetching the 6th field, one re-prompt on `"8"`,
and failure on any other status). -/
theorem C4_twofactor_witness :
    twofactorRun (fun u => u)
      ["a<!>b<!>c<!>d<!>8<!>x", "a<!>b<!>c<!>d<!>4<!>path"]
      = (.accepted "https://vk.com/path", 2) ∧
    twofactorRun (fun u => u) ["a<!>b<!>c<!>d<!>9<!>x"] = (.failTF, 1) := by
  constructor
  · have h8 := ((C4_twofactor (fun u => u) "a<!>b<!>c<!>d<!>8<!>x"
      ["a<!>b<!>c<!>d<!>4<!>path"]).2.1) (by rfl)
    have h4 := ((C4_twofactor (fun u => u) "a<!>b<!>c<!>d<!>4<!>path"
      []).1) "path" (by rfl) (by rfl)
    rw [h8, h4]
    rfl
  · exact ((C4_twofactor (fun u => u) "a<!>b<!>c<!>d<!>9<!>x" []).2.2)
      "9" (by rfl) (by decide) (by decide)

/-- Counterexample for C9: no constructor argument makes the handler
consulted by `method` on a transport failure differ from the default —
`__init__` takes only `auth_handler` and `captcha_handler` (and the retry
continuation of the fixed rate-limit policy), and the consulted
`http_handler` is an instance method untouched by all of them. -/
theorem C9_cex :
    ¬ ∃ (a c : Option HandlerFn) (tm : HandlerFn),
      (vkApiInit a c tm).httpH ≠ http_handler :=
  fun ⟨_, _, _, hne⟩ => hne rfl

/-- C9 (amended): the transport/HTTP-failure handler defaults to a no-op
that propagates the error (under it `method` raises the `ApiHttpError`),
and it is not overridable at client construction — for every constructor
argument the consulted handler is the default; the constructor-overridable
handlers are the CAPTCHA and two-factor registry entries. -/
theorem C9_http_default :
    (∀ (a c : Option HandlerFn) (tm : HandlerFn),
      (vkApiInit a c tm).httpH = http_handler) ∧
    (∀ e, http_handler e = .ok none) ∧
    (∀ (a c : Option HandlerFn) (tm : HandlerFn) (st : VkState)
      (apiVersion m : String) (params : List (String × String))
      (cs ck : Option String) (raw : Bool) (t : ℚ)
      (values : List (String × String)),
      buildValues st apiVersion params cs ck = .ok values →
      (methodRun st apiVersion (vkApiInit a c tm) m params cs ck raw
        .fail t).result = .error (.httpError m values)) ∧
    (∀ (f : HandlerFn) (a : Option HandlerFn) (tm : HandlerFn),
      (vkApiInit a (some f) tm).registry CAPTCHA_ERROR_CODE = some f) ∧
    (∀ (f : HandlerFn) (c : Option HandlerFn) (tm : HandlerFn),
      (vkApiInit (some f) c tm).registry TWOFACTOR_CODE = some f) := by
  refine ⟨fun _ _ _ => rfl, fun _ => rfl, ?_, ?_, ?_⟩
  · intro a c tm st apiVersion m params cs ck raw t values hv
    unfold methodRun
    rw [hv]
    rfl
  · intro f a tm
    simp [vkApiInit, CAPTCHA_ERROR_CODE, NEED_VALIDATION_CODE]
  · intro f c tm
    simp [vkApiInit, TWOFACTOR_CODE, NEED_VALIDATION_CODE,
      CAPTCHA_ERROR_CODE, TOO_MANY_RPS_CODE]

/-- Witness for C9 (amended): a concrete transport failure under a
default-constructed client raises the transport error. -/
theorem C9_http_default_witness :
    (methodRun ⟨none, none, 0⟩ "5.63" (vkApiInit none none http_handler)
      "users.get" [] none none false .fail 1).result
      = .error (.httpError "users.get" [("v", "5.63")]) :=
  C9_http_default.2.2.1 none none http_handler ⟨none, none, 0⟩ "5.63"
    "users.get" [] none none false 1 [("v", "5.63")] rfl

/-- C5: when an API error's code has a registry entry, a handler result
that is not `None` is returned to the original caller (short-circuiting
the call), a `None` result re-raises the dispatched error, and a code with
no registry entry propagates the `ApiError` unresolved. -/
theorem C5_handler_dispatch (st : VkState) (apiVersion : String)
    (h : Handlers) (m : String) (params : List (String × String))
    (cs ck : Option String) (raw : Bool) (t : ℚ) (body payload : Json)
    (code : Int) (values : List (String × String))
    (hv : buildValues st apiVersion params cs ck = .ok values)
    (hb : body.getField "error" = some payload)
    (hc : payload.getInt "error_code" = some code) :
    (h.registry code = none →
      (methodRun st apiVersion h m params cs ck raw (.ok body) t).result
        = .error (.apiError m values code)) ∧
    (∀ handler err, h.registry code = some handler →
      dispatchError m values code payload = .ok err →
      (∀ v, handler err = .ok (some v) →
        (methodRun st apiVersion h m params cs ck raw (.ok body) t).result
          = .ok v) ∧
      (handler err = .ok none →
        (methodRun st apiVersion h m params cs ck raw (.ok body) t).result
          = .error err)) := by
  constructor
  · intro hreg
    unfold methodRun
    simp only [hv, hb, hc, hreg]
  · intro handler err hreg hdisp
    constructor
    · intro v hres
      unfold methodRun
      simp only [hv, hb, hc, hreg, hdisp, hres]
    · intro hres
      unfold methodRun
      simp only [hv, hb, hc, hreg, hdisp, hres]

/-- Witness for C5: a concrete API error with an unregistered code
propagates unresolved, and a registered handler returning a value
short-circuits. -/
theorem C5_handler_dispatch_witness :
    (methodRun ⟨none, none, 0⟩ "5.63" (vkApiInit none none http_handler)
      "users.get" [] none none false
      (.ok (Json.obj [("error", Json.obj [("error_code", Json.num 100)])]))
      1).result
      = .error (.apiError "users.get" [("v", "5.63")] 100) :=
  (C5_handler_dispatch ⟨none, none, 0⟩ "5.63"
    (vkApiInit none none http_handler) "users.get" [] none none false 1
    (Json.obj [("error", Json.obj [("error_code", Json.num 100)])])
    (Json.obj [("error_code", Json.num 100)]) 100 [("v", "5.63")]
    rfl rfl rfl).1 (by rfl)

/- ### Lemmas about the three value-building stages -/

theorem stageV_lookup_absent (apiVersion : String)
    (params : List (String × String)) (hA : dictHas params "v" = false) :
    dictLookup (stageV apiVersion params) "v" = some apiVersion := by
  unfold stageV
  rw [hA]
  simp only [Bool.false_eq_true, if_false]
  exact dictLookup_dictInsert_self params "v" apiVersion

theorem stageV_lookup_ne (apiVersion : String)
    (params : List (String × String)) (key : String) (hk : key ≠ "v") :
    dictLookup (stageV apiVersion params) key = dictLookup params key := by
  unfold stageV
  by_cases hA : dictHas params "v"
  · rw [if_pos hA]
  · rw [if_neg hA]
    exact dictLookup_dictInsert_ne params "v" apiVersion key hk

theorem stageToken_ok_lookup_ne (token : Option (List (String × String)))
    (vals v2 : List (String × String)) (key : String)
    (h : stageToken token vals = .ok v2) (hk : key ≠ "access_token") :
    dictLookup v2 key = dictLookup vals key := by
  unfold stageToken at h
  by_cases ht : tokenTruthy token
  · rw [if_pos ht] at h
    cases token with
    | none => exact absurd h (by simp)
    | some tk =>
      dsimp only at h
      cases hlk : dictLookup tk "access_token" with
      | none => rw [hlk] at h; exact absurd h (by simp)
      | some tok =>
        rw [hlk] at h
        injection h with h
        rw [← h]
        exact dictLookup_dictInsert_ne vals "access_token" tok key hk
  · rw [if_neg ht] at h
    injection h with h
    rw [← h]

theorem stageToken_ok_access (token : Option (List (String × String)))
    (vals v2 tk' : List (String × String)) (tok : String)
    (h : stageToken token vals = .ok v2) (htk : token = some tk')
    (htr : tokenTruthy token = true)
    (hlk : dictLookup tk' "access_token" = some tok) :
    dictLookup v2 "access_token" = some tok := by
  subst htk
  unfold stageToken at h
  rw [htr] at h
  simp only [if_true, hlk] at h
  injection h with h
  rw [← h]
  exact dictLookup_dictInsert_self vals "access_token" tok

theorem stageCaptcha_lookup_ne (cs ck : Option String)
    (vals : List (String × String)) (key : String)
    (h1 : key ≠ "captcha_sid") (h2 : key ≠ "captcha_key") :
    dictLookup (stageCaptcha cs ck vals) key = dictLookup vals key := by
  unfold stageCaptcha
  by_cases hc : optTruthy cs && optTruthy ck
  · rw [if_pos hc]
    rw [dictLookup_dictInsert_ne _ "captcha_key" _ key h2]
    exact dictLookup_dictInsert_ne _ "captcha_sid" _ key h1
  · rw [if_neg hc]

theorem stageCaptcha_both (s1 s2 : String) (vals : List (String × String))
    (h1 : s1.isEmpty = false) (h2 : s2.isEmpty = false) :
    dictLookup (stageCaptcha (some s1) (some s2) vals) "captcha_sid"
        = some s1 ∧
    dictLookup (stageCaptcha (some s1) (some s2) vals) "captcha_key"
        = some s2 := by
  unfold stageCaptcha
  split
  · constructor
    · rw [dictLookup_dictInsert_ne _ "captcha_key" _ "captcha_sid"
        (by decide)]
      simpa using dictLookup_dictInsert_self vals "captcha_sid" s1
    · simpa using
        dictLookup_dictInsert_self (dictInsert vals "captcha_sid"
          ((some s1).getD "")) "captcha_key" s2
  · next hfalse =>
      exfalso
      apply hfalse
      simp [optTruthy, h1, h2]

theorem buildValues_split (st : VkState) (apiVersion : String)
    (params : List (String × String)) (cs ck : Option String)
    (values : List (String × String))
    (hv : buildValues st apiVersion params cs ck = .ok values) :
    ∃ v2, stageToken st.token (stageV apiVersion params) = .ok v2 ∧
      values = stageCaptcha cs ck v2 := by
  unfold buildValues at hv
  cases hst : stageToken st.token (stageV apiVersion params) with
  | error e => rw [hst] at hv; exact absurd hv (by simp)
  | ok v2 =>
    rw [hst] at hv
    injection hv with hv
    exact ⟨v2, rfl, hv.symm⟩

theorem stageV_has (apiVersion : String) (params : List (String × String))
    (hA : dictHas params "v" = true) : stageV apiVersion params = params := by
  unfold stageV
  rw [if_pos hA]

theorem methodRun_callerValues (st : VkState) (apiVersion : String)
    (h : Handlers) (m : String) (params : List (String × String))
    (cs ck : Option String) (raw : Bool) (resp : HttpResp) (t : ℚ) :
    (methodRun st apiVersion h m params cs ck raw resp t).callerValues
      = params := by
  unfold methodRun
  dsimp only
  repeat' split
  all_goals rfl

/-- C6: on a transport-success invocation whose body has no `error` field,
`method` leaves the caller's params mapping unmodified (it operates on a
copy), sends exactly one request whose parameters are the caller's params
with the API-version parameter defaulted when absent (and passed through
when present), the current access token attached when present, the CAPTCHA
fields attached when both are supplied, and every other key passed through
unchanged; it returns the parsed body's `response` field, or the whole
parsed body when `raw = true`. -/
theorem C6_success_path (st : VkState) (apiVersion : String) (h : Handlers)
    (m : String) (params : List (String × String)) (cs ck : Option String)
    (raw : Bool) (t : ℚ) (body : Json) (values : List (String × String))
    (hv : buildValues st apiVersion params cs ck = .ok values)
    (hb : body.getField "error" = none) :
    (methodRun st apiVersion h m params cs ck raw (.ok body) t).callerValues
        = params ∧
    (methodRun st apiVersion h m params cs ck raw (.ok body) t).requests
        = [(m, values)] ∧
    (raw = true →
      (methodRun st apiVersion h m params cs ck raw (.ok body) t).result
        = .ok body) ∧
    (∀ r, raw = false → body.getField "response" = some r →
      (methodRun st apiVersion h m params cs ck raw (.ok body) t).result
        = .ok r) ∧
    (dictHas params "v" = false →
      dictLookup values "v" = some apiVersion) ∧
    (dictHas params "v" = true →
      dictLookup values "v" = dictLookup params "v") ∧
    (∀ tk tok, st.token = some tk → tokenTruthy st.token = true →
      dictLookup tk "access_token" = some tok →
      dictLookup values "access_token" = some tok) ∧
    (∀ s1 s2, cs = some s1 → ck = some s2 → s1.isEmpty = false →
      s2.isEmpty = false →
      dictLookup values "captcha_sid" = some s1 ∧
      dictLookup values "captcha_key" = some s2) ∧
    (∀ key, key ≠ "v" → key ≠ "access_token" → key ≠ "captcha_sid" →
      key ≠ "captcha_key" →
      dictLookup values key = dictLookup params key) := by
  obtain ⟨v2, hst, hvals⟩ :=
    buildValues_split st apiVersion params cs ck values hv
  refine ⟨methodRun_callerValues st apiVersion h m params cs ck raw
      (.ok body) t,
    methodRun_requests st apiVersion h m params cs ck raw (.ok body) t
      values hv, ?_, ?_, ?_, ?_, ?_, ?_, ?_⟩
  · intro hraw
    subst hraw
    unfold methodRun
    simp [hv, hb]
  · intro r hraw hr
    subst hraw
    unfold methodRun
    simp [hv, hb, hr]
  · intro hA
    subst hvals
    rw [stageCaptcha_lookup_ne cs ck v2 "v" (by decide) (by decide)]
    rw [stageToken_ok_lookup_ne st.token _ v2 "v" hst (by decide)]
    exact stageV_lookup_absent apiVersion params hA
  · intro hA
    subst hvals
    rw [stageCaptcha_lookup_ne cs ck v2 "v" (by decide) (by decide)]
    rw [stageToken_ok_lookup_ne st.token _ v2 "v" hst (by decide)]
    rw [stageV_has apiVersion params hA]
  · intro tk tok htk htr hlk
    subst hvals
    rw [stageCaptcha_lookup_ne cs ck v2 "access_token" (by decide)
      (by decide)]
    exact stageToken_ok_access st.token _ v2 tk tok hst htk htr hlk
  · intro s1 s2 hcs hck h1 h2
    subst hvals
    subst hcs
    subst hck
    exact stageCaptcha_both s1 s2 v2 h1 h2
  · intro key hk1 hk2 hk3 hk4
    subst hvals
    rw [stageCaptcha_lookup_ne cs ck v2 key hk3 hk4]
    rw [stageToken_ok_lookup_ne st.token _ v2 key hst hk2]
    exact stageV_lookup_ne apiVersion params key hk1

/-- Witness for C6: a concrete success-path call with a stored token and
CAPTCHA fields supplied; the request carries the defaulted version, the
token, and the CAPTCHA fields, and the `response` field is returned. -/
theorem C6_success_path_witness :
    (methodRun ⟨none, some [("access_token", "abc")], 0⟩ "5.63"
      (vkApiInit none none http_handler) "users.get" [("x", "1")]
      (some "99") (some "key") false (.ok (Json.obj [("response",
      Json.num 7)])) 1).requests
      = [("users.get", [("x", "1"), ("v", "5.63"),
          ("access_token", "abc"), ("captcha_sid", "99"),
          ("captcha_key", "key")])] ∧
    (methodRun ⟨none, some [("access_token", "abc")], 0⟩ "5.63"
      (vkApiInit none none http_handler) "users.get" [("x", "1")]
      (some "99") (some "key") false (.ok (Json.obj [("response",
      Json.num 7)])) 1).result = .ok (Json.num 7) := by
  have hmain := C6_success_path ⟨none, some [("access_token", "abc")], 0⟩
    "5.63" (vkApiInit none none http_handler) "users.get" [("x", "1")]
    (some "99") (some "key") false 1
    (Json.obj [("response", Json.num 7)])
    [("x", "1"), ("v", "5.63"), ("access_token", "abc"),
     ("captcha_sid", "99"), ("captcha_key", "key")] rfl rfl
  exact ⟨hmain.2.1, hmain.2.2.2.1 (Json.num 7) rfl rfl⟩

/-- Counterexample for C2: a client with a login configured and a
pre-loaded valid token (the probe succeeds), calling `auth` with
`token_only = true` and `reauth = false`, issues exactly one network
request — the `stats.trackVisitor` validity probe inside `check_token` —
not zero. -/
theorem C2_cex :
    auth (some "user") none "33554431"
      ⟨none, [("33554431", [("access_token", "abc")])]⟩ "5.63"
      (vkApiInit none none http_handler) false true
      (.ok (Json.obj [("response", Json.num 1)])) 1 Json.null
      (.ok (), []) (.ok (), []) (.ok (), []) (.ok (), [])
      = (.ok (), [("stats.trackVisitor",
          [("v", "5.63"), ("access_token", "abc")])]) := by
  rfl

/-- C2 (amended): with a login configured and a pre-loaded valid token,
`auth` with `token_only = true` and `reauth = false` returns successfully
after exactly one network request — the token-validity probe — invoking
no cookie login, security check or token exchange. -/
theorem C2_amended (login password : Option String)
    (scope apiVersion : String) (settings : Settings) (h : Handlers)
    (probe : HttpResp) (t : ℚ) (feedResp : Json)
    (secF apiF vkF ckF : SubFlow) (values : List (String × String))
    (r : Json)
    (hlogin : optTruthy login = true)
    (htok : tokenTruthy (authState settings scope).token = true)
    (hv : buildValues (authState settings scope) apiVersion [] none none
      = .ok values)
    (hok : (methodRun (authState settings scope) apiVersion h
      "stats.trackVisitor" [] none none false probe t).result = .ok r) :
    auth login password scope settings apiVersion h false true probe t
      feedResp secF apiF vkF ckF
      = (.ok (), [("stats.trackVisitor", values)]) := by
  have hct : check_token (authState settings scope) apiVersion h probe t
      = (.ok (some true), [("stats.trackVisitor", values)]) := by
    unfold check_token
    rw [if_pos htok]
    dsimp only
    rw [hok, methodRun_requests (authState settings scope) apiVersion h
      "stats.trackVisitor" [] none none false probe t values hv]
  unfold auth
  simp only [hlogin, Bool.not_true, Bool.false_eq_true, if_false, if_true]
  unfold auth_token
  simp [hct]

/-- Witness for C2 (amended): the concrete client of the counterexample
satisfies the hypotheses and issues exactly the probe request. -/
theorem C2_amended_witness :
    auth (some "user") none "33554431"
      ⟨none, [("33554431", [("access_token", "abc")])]⟩ "5.63"
      (vkApiInit none none http_handler) false true
      (.ok (Json.obj [("response", Json.num 1)])) 1 Json.null
      (.ok (), []) (.ok (), []) (.ok (), []) (.ok (), [])
      = (.ok (), [("stats.trackVisitor",
          [("v", "5.63"), ("access_token", "abc")])]) :=
  C2_amended (some "user") none "33554431" "5.63"
    ⟨none, [("33554431", [("access_token", "abc")])]⟩
    (vkApiInit none none http_handler)
    (.ok (Json.obj [("response", Json.num 1)])) 1 Json.null
    (.ok (), []) (.ok (), []) (.ok (), []) (.ok (), [])
    [("v", "5.63"), ("access_token", "abc")] (Json.num 1)
    rfl rfl rfl rfl

/-- Counterexample for C3: with `token_only = true`, an invalid (absent)
stored token, an invalid (absent) stored sid and no password, `auth`
does not fail with `AuthError` — it returns normally, having issued no
request and invoked no sub-flow (`_auth_token` has no terminal else
branch). -/
theorem C3_cex :
    auth (some "user") none "33554431" ⟨none, []⟩ "5.63"
      (vkApiInit none none http_handler) false true .fail 1 Json.null
      (.ok (), []) (.ok (), []) (.ok (), []) (.ok (), [])
      = (.ok (), []) := by
  rfl

/-- C3 (amended): in token-preferring mode with a falsy token check, a
falsy sid check and no password configured, `_auth_token` returns
normally — no `AuthError` is raised and no authentication sub-flow is
invoked (only the requests of the two validity checks are issued). -/
theorem C3_amended (st : VkState) (password : Option String)
    (apiVersion : String) (h : Handlers) (probe : HttpResp) (t : ℚ)
    (feedResp : Json) (secF apiF vkF : SubFlow) (r : Option Bool)
    (hct : (check_token st apiVersion h probe t).1 = .ok r)
    (hfalsy : r.getD false = false)
    (hsid : (check_sid st.sid feedResp).1 = .ok none)
    (hpw : optTruthy password = false) :
    auth_token st password apiVersion h false probe t feedResp secF apiF
      vkF = (.ok (), (check_token st apiVersion h probe t).2
        ++ (check_sid st.sid feedResp).2) := by
  unfold auth_token
  simp [hct, hfalsy, hsid, hpw]

/-- Witness for C3 (amended): the concrete unauthenticated client of the
counterexample satisfies every hypothesis. -/
theorem C3_amended_witness :
    auth_token ⟨none, none, 0⟩ none "5.63"
      (vkApiInit none none http_handler) false .fail 1 Json.null
      (.ok (), []) (.ok (), []) (.ok (), [])
      = (.ok (), (check_token ⟨none, none, 0⟩ "5.63"
          (vkApiInit none none http_handler) .fail 1).2
        ++ (check_sid (⟨none, none, 0⟩ : VkState).sid Json.null).2) :=
  C3_amended ⟨none, none, 0⟩ none "5.63"
    (vkApiInit none none http_handler) .fail 1 Json.null
    (.ok (), []) (.ok (), []) (.ok (), []) none rfl rfl rfl rfl
